import Mathlib

/-!
Shallow embedding of `src/twitter_metrics.py` — the `TwitterCounter` and
`PostingReminder` classes of the Poke-X-Twitter MCP server — together with
theorems settling the frozen claims about that code.

Modelling conventions:
* Python `dict`s become association lists with Python's update semantics
  (`dictGet` / `dictSet`): insertion order is preserved and assignment to an
  existing key replaces the value in place.
* The wall clock is passed explicitly: `datetime.now()` yields naive *local*
  time, modelled as `utcNow + tzOffset` seconds since the epoch (plus a
  microsecond component that `replace(microsecond=0)` discards).
* Outbound HTTP exchanges are oracles: each embedded operation receives the
  provider's response as a parameter and the network side effects are made
  observable (call counter increments, delivered messages, log events).
* Python exceptions carrying message strings become `Except String`.
-/

/-- Python `dict` read: first (and, for reachable states, only) binding wins. -/
def dictGet {α : Type} (k : String) : List (String × α) → Option α
  | [] => none
  | p :: rest => if p.1 == k then some p.2 else dictGet k rest

/-- Python `dict` assignment `d[k] = v`: replace the binding in place if the
key is present, otherwise append a fresh binding at the end. -/
def dictSet {α : Type} (k : String) (v : α) : List (String × α) → List (String × α)
  | [] => [(k, v)]
  | p :: rest => if p.1 == k then (k, v) :: rest else p :: dictSet k v rest

/-- Number of bindings for key `k` (a real Python dict always has 0 or 1). -/
def countKey {α : Type} (k : String) (l : List (String × α)) : Nat :=
  (l.filter (fun p => p.1 == k)).length

/-- `listStarts p l`: `p` is a leading segment of `l` (Python `str.startswith`). -/
def listStarts : List Char → List Char → Bool
  | [], _ => true
  | _ :: _, [] => false
  | a :: p, b :: l => a == b && listStarts p l

/-- `listHasSub p l`: `p` occurs contiguously inside `l` (Python `in` on strings). -/
def listHasSub (p : List Char) : List Char → Bool
  | [] => listStarts p []
  | b :: l => listStarts p (b :: l) || listHasSub p l

/-- Python `pat in s` for strings. -/
def strHasSub (pat s : String) : Bool := listHasSub pat.data s.data

/-- Python `s.startswith(pat)`. -/
def strStarts (pat s : String) : Bool := listStarts pat.data s.data

/-- Broken-down civil time used to embed `strftime` / `isoformat`. -/
structure CivilDateTime where
  year : Int
  month : Int
  day : Int
  hour : Int
  minute : Int
  second : Int
deriving DecidableEq, Repr

/-- Days since 1970-01-01 to proleptic Gregorian (year, month, day);
the standard era-based conversion used by civil-time libraries. -/
def civilFromDays (z0 : Int) : Int × Int × Int :=
  let z := z0 + 719468
  let era := z.ediv 146097
  let doe := z.emod 146097
  let yoe := (doe - doe.ediv 1460 + doe.ediv 36524 - doe.ediv 146096).ediv 365
  let y := yoe + era * 400
  let doy := doe - (365 * yoe + yoe.ediv 4 - yoe.ediv 100)
  let mp := (5 * doy + 2).ediv 153
  let d := doy - (153 * mp + 2).ediv 5 + 1
  let m := mp + (if mp < 10 then 3 else -9)
  (y + (if m ≤ 2 then 1 else 0), m, d)

/-- Seconds since the epoch (of whatever clock is in use) to civil time. -/
def civilFromSec (sec : Int) : CivilDateTime :=
  let days := sec.ediv 86400
  let sod := sec.emod 86400
  let ymd := civilFromDays days
  ⟨ymd.1, ymd.2.1, ymd.2.2, sod.ediv 3600, (sod.ediv 60).emod 60, sod.emod 60⟩

/-- Zero-pad to two digits (`strftime` `%m`/`%d`/`%H`/`%M`/`%S`). -/
def pad2 (n : Int) : String := if n < 10 then "0" ++ toString n else toString n

/-- Zero-pad to four digits (`strftime` `%Y`). -/
def pad4 (n : Int) : String :=
  (if n < 10 then "000" else if n < 100 then "00" else if n < 1000 then "0" else "")
    ++ toString n

/-- Zero-pad to six digits (`isoformat` microseconds). -/
def pad6 (n : Int) : String :=
  (if n < 10 then "00000" else if n < 100 then "0000" else if n < 1000 then "000"
   else if n < 10000 then "00" else if n < 100000 then "0" else "")
    ++ toString n

/-- `dt.strftime("%Y-%m-%dT%H:%M:%SZ")` — the literal `Z` is appended to the
naive broken-down time regardless of which timezone produced it. -/
def strftimeZ (sec : Int) : String :=
  let c := civilFromSec sec
  pad4 c.year ++ "-" ++ pad2 c.month ++ "-" ++ pad2 c.day ++ "T"
    ++ pad2 c.hour ++ ":" ++ pad2 c.minute ++ ":" ++ pad2 c.second ++ "Z"

/-- `datetime.isoformat()` on a naive datetime (microseconds omitted when 0). -/
def isoformatLocal (sec usec : Int) : String :=
  let c := civilFromSec sec
  pad4 c.year ++ "-" ++ pad2 c.month ++ "-" ++ pad2 c.day ++ "T"
    ++ pad2 c.hour ++ ":" ++ pad2 c.minute ++ ":" ++ pad2 c.second
    ++ (if usec == 0 then "" else "." ++ pad6 usec)

/-- Instance state of `TwitterCounter` (lines 16-27): the advisory call
counter and the username → user-id cache. -/
structure TCState where
  api_calls_made : Nat
  user_id_cache : List (String × String)
deriving DecidableEq, Repr

/-- Console output of `_log_api_call` (lines 29-37). -/
inductive ApiLogEvent where
  | info (n : Nat) (endpoint : String)
  | warnApproachingLimit
  | criticalExceededLimit
deriving DecidableEq, Repr

/-- `_log_api_call` (lines 29-37): increment the counter, print the info
line, then `if self.api_calls_made >= 90: warn / elif >= 100: critical`. -/
def logApiCall (st : TCState) (endpoint : String) : TCState × List ApiLogEvent :=
  let n := st.api_calls_made + 1
  (⟨n, st.user_id_cache⟩,
   ApiLogEvent.info n endpoint ::
     (if n ≥ 90 then [ApiLogEvent.warnApproachingLimit]
      else if n ≥ 100 then [ApiLogEvent.criticalExceededLimit]
      else []))

/-- Provider response to `GET /2/users/by/username/{username}`:
HTTP status, raw body text, and `data.id` when the JSON carries a
`data` member (`none` models a 200 body without `data`). -/
structure UserResponse where
  status : Nat
  body : String
  dataId : Option String
deriving DecidableEq, Repr

/-- `TwitterCounter.get_user_id` (lines 39-66). The provider's response to
the (single, possibly skipped) lookup call is the `resp` oracle. -/
def get_user_id (st : TCState) (resp : UserResponse) (username : String) :
    Except String String × TCState :=
  match dictGet username st.user_id_cache with
  | some uid => (Except.ok uid, st)
  | none =>
    let st1 := (logApiCall st ("get_user_by_username(\x27" ++ username ++ "\x27)")).1
    if resp.status == 200 then
      match resp.dataId with
      | some uid =>
        (Except.ok uid, ⟨st1.api_calls_made, dictSet username uid st1.user_id_cache⟩)
      | none =>
        (Except.error ("Error fetching user ID for \x27" ++ username ++ "\x27: User \x27"
           ++ username ++ "\x27 not found"), st1)
    else
      (Except.error ("Error fetching user ID for \x27" ++ username ++ "\x27: API Error "
         ++ toString resp.status ++ ": " ++ resp.body), st1)

/-- Provider response to `GET /2/tweets/counts/recent`: HTTP status, raw body
text, and the list of `tweet_count` values of the returned time buckets
(`none` models a 200 body without a `data` member). -/
structure CountResponse where
  status : Nat
  body : String
  buckets : Option (List Nat)
deriving DecidableEq, Repr

/-- The success dictionary returned by `get_tweet_count_24h` (lines 103-119). -/
structure TweetCountResult where
  username : String
  user_id : String
  tweet_count_24h : Nat
  period : String
  timestamp : String
  api_calls_used : Nat
deriving DecidableEq, Repr

/-- Lines 75-80 given the naive local wall clock in epoch seconds:
`end_time = now.replace(microsecond=0) - 30s`, `start_time = end_time - 24h`,
both rendered by `strftime("%Y-%m-%dT%H:%M:%SZ")`. Returns (start, end). -/
def windowFromLocal (localSec : Int) : String × String :=
  let endT := localSec - 30
  let startT := endT - 86400
  (strftimeZ startT, strftimeZ endT)

/-- Lines 75-80 with the clock split into the true UTC instant, the local
timezone offset, and the microsecond component that `replace(microsecond=0)`
drops: `datetime.now()` yields naive local time `utcNow + tzOffset`. -/
def tweetWindow (utcNow tzOffset usec : Int) : String × String :=
  windowFromLocal (utcNow + tzOffset)

/-- The `except` handler at lines 123-127: any exception text containing
`"429"` is re-raised as the rate-limit message, everything else as the
generic fetch error. -/
def wrapCountError (e : String) : String :=
  if strHasSub "429" e then
    "Rate limit exceeded. Please wait 15 minutes before trying again. Error: " ++ e
  else
    "Error fetching tweet count: " ++ e

/-- `TwitterCounter.get_tweet_count_24h` (lines 68-127). `uresp` is the
provider's answer to the user-lookup call (consulted only on a cache miss),
`cresp` the answer to the counting call; `nowSec`/`nowUsec` embed
`datetime.now()` as naive local time. -/
def get_tweet_count_24h (st : TCState) (uresp : UserResponse) (cresp : CountResponse)
    (username : String) (nowSec nowUsec : Int) :
    Except String TweetCountResult × TCState :=
  match get_user_id st uresp username with
  | (Except.error e, st1) => (Except.error (wrapCountError e), st1)
  | (Except.ok uid, st1) =>
    let start_time_str := (windowFromLocal nowSec).1
    let end_time_str := (windowFromLocal nowSec).2
    let query := "from:" ++ username
    let st2 := (logApiCall st1 ("tweets/counts/recent(user=" ++ username ++ ")")).1
    if cresp.status == 200 then
      match cresp.buckets with
      | some pts =>
        if pts.length > 0 then
          (Except.ok ⟨username, uid, pts.sum, "24 hours",
             isoformatLocal nowSec nowUsec, st2.api_calls_made⟩, st2)
        else
          (Except.ok ⟨username, uid, 0, "24 hours",
             isoformatLocal nowSec nowUsec, st2.api_calls_made⟩, st2)
      | none =>
        (Except.ok ⟨username, uid, 0, "24 hours",
           isoformatLocal nowSec nowUsec, st2.api_calls_made⟩, st2)
    else
      (Except.error (wrapCountError ("API Error " ++ toString cresp.status ++ ": "
         ++ cresp.body)), st2)

/-- Second char of a two-digit hour: `%H` matches `2[0-3]|[0-1]\d|\d`. -/
def hourTwoDigits (a b : Char) : Bool :=
  (a == '2' && ('0' ≤ b && b ≤ '3')) || ((a == '0' || a == '1') && b.isDigit)

/-- Two-digit minute: `%M` matches `[0-5]\d|\d`. -/
def minuteTwoDigits (c d : Char) : Bool :=
  ('0' ≤ c && c ≤ '5') && d.isDigit

/-- `datetime.strptime(s, "%H:%M")` succeeds (line 176): the anchored,
fully-consuming regex `(2[0-3]|[0-1]\d|\d):([0-5]\d|\d)` over ASCII digits —
note it also tolerates one-digit hours and minutes, e.g. `"9:5"`. -/
def strptimeHM (s : String) : Bool :=
  match s.data with
  | [a, b, ':', c, d] => hourTwoDigits a b && minuteTwoDigits c d
  | [a, b, ':', c] => hourTwoDigits a b && c.isDigit
  | [a, ':', c, d] => a.isDigit && minuteTwoDigits c d
  | [a, ':', c] => a.isDigit && c.isDigit
  | _ => false

/-- The generated default reminder text (lines 180-194): the tweet count is a
hardcoded literal `0`; only the reminder time and the goal are interpolated. -/
def default_message (reminder_time : String) (min_posts : Int) : String :=
  "🚨 Daily Posting Reminder\n\nHi! You haven\x27t posted on Twitter today yet.\n\n📊 Current status: 0 tweets in last 24 hours\n⏰ Time: "
    ++ reminder_time
    ++ "\n🎯 Goal: At least " ++ toString min_posts
    ++ " post(s) per day\n\nConsider sharing:\n• A thought or insight\n• Something you\x27re working on\n• An interesting link or article\n• Engagement with your community\n\nKeep that posting streak alive! 🚀"

/-- One stored reminder configuration (lines 196-203). -/
structure ReminderConfig where
  username : String
  reminder_time : String
  min_posts : Int
  message : String
  active : Bool
  created_at : String
deriving DecidableEq, Repr

/-- Instance state of `PostingReminder` (lines 159-162): the optional Poke
delivery client (modelled as its `send_message` function) and the registry. -/
structure PostingReminder where
  poke_client : Option (String → String)
  reminders : List (String × ReminderConfig)

/-- Return dictionary of `setup_daily_reminder`: the success shape
`{'success': True, 'reminder_id', 'config', 'message'}` or the failure shape
`{'success': False, 'error'}`. -/
inductive SetupResult where
  | success (reminder_id : String) (config : ReminderConfig) (message : String)
  | failure (error : String)
deriving DecidableEq, Repr

/-- `PostingReminder.setup_daily_reminder` (lines 164-221). `nowIso` embeds
`datetime.now().isoformat()`. Only `datetime.strptime` can raise inside the
`try`, so the generic `except Exception` arm at lines 217-221 is dead code
and has no embedded counterpart. Note `message or default_message` treats an
empty custom message as absent (Python falsiness). The username is never
validated. -/
def setup_daily_reminder (pr : PostingReminder) (username reminder_time : String)
    (min_posts : Int) (message : Option String) (nowIso : String) :
    SetupResult × PostingReminder :=
  if strptimeHM reminder_time then
    let reminder_id := "daily_" ++ username ++ "_" ++ reminder_time
    let msg := match message with
      | some m => if m == "" then default_message reminder_time min_posts else m
      | none => default_message reminder_time min_posts
    let config : ReminderConfig :=
      ⟨username, reminder_time, min_posts, msg, true, nowIso⟩
    (SetupResult.success reminder_id config
       ("✅ Daily reminder set for @" ++ username ++ " at " ++ reminder_time),
     ⟨pr.poke_client, dictSet reminder_id config pr.reminders⟩)
  else
    (SetupResult.failure "Invalid time format. Use HH:MM (e.g., \"18:00\")", pr)

/-- One per-entry result dictionary appended by `check_and_send_reminders`
(lines 243-273); `none` fields model absent dictionary keys. -/
structure CheckEntry where
  reminder_id : String
  username : String
  sent : Bool
  tweet_count : Option Nat
  poke_response : Option String
  error : Option String
  reason : Option String
deriving DecidableEq, Repr

/-- The report dictionary returned by `check_and_send_reminders`
(lines 275-280): `checked` counts the results without an `error` key. -/
structure CheckReport where
  check_time : String
  results : List CheckEntry
  total_reminders : Nat
  checked : Nat
deriving Repr

/-- Loop body of `check_and_send_reminders` (lines 231-273) for one registry
entry: `none` when the entry is skipped, otherwise the recorded result
together with the message delivered to the Poke client (if any). `fetch`
embeds `twitter_counter.get_tweet_count_24h`, reduced to the only field the
checker reads (`tweet_count_24h`) or the exception text. -/
def processReminder (poke : Option (String → String))
    (fetch : String → Except String Nat) (current_time : String)
    (p : String × ReminderConfig) : Option (CheckEntry × Option String) :=
  let rid := p.1
  let cfg := p.2
  if !cfg.active || cfg.reminder_time != current_time then
    none
  else
    match fetch cfg.username with
    | Except.error e =>
      some (⟨rid, cfg.username, false, none, none, some e, none⟩, none)
    | Except.ok count =>
      if (count : Int) < cfg.min_posts then
        match poke with
        | some send =>
          some (⟨rid, cfg.username, true, some count, some (send cfg.message),
                 none, none⟩, some cfg.message)
        | none =>
          some (⟨rid, cfg.username, false, some count, none,
                 some "No Poke client configured", none⟩, none)
      else
        some (⟨rid, cfg.username, false, some count, none, none,
               some "Tweet goal already met"⟩, none)

/-- `PostingReminder.check_and_send_reminders` (lines 223-280): a single
synchronous pass over the registry in insertion order. `current_time` embeds
`datetime.now().strftime("%H:%M")`. The second component is the ordered list
of messages actually handed to `poke_client.send_message`. -/
def check_and_send_reminders (pr : PostingReminder)
    (fetch : String → Except String Nat) (current_time : String) :
    CheckReport × List String :=
  let step := pr.reminders.filterMap (processReminder pr.poke_client fetch current_time)
  let results := step.map Prod.fst
  (⟨current_time, results, pr.reminders.length,
    (results.filter (fun r => r.error.isNone)).length⟩,
   step.filterMap Prod.snd)

theorem dictGet_dictSet {α : Type} (k : String) (v : α) (l : List (String × α)) :
    dictGet k (dictSet k v l) = some v := by
  induction l with
  | nil => simp [dictGet, dictSet]
  | cons h t ih =>
    by_cases hk : h.1 == k <;> simp [dictGet, dictSet, hk, ih]

theorem dictGet_dictSet_ne {α : Type} {k k2 : String} (v : α) (l : List (String × α))
    (hne : k ≠ k2) : dictGet k (dictSet k2 v l) = dictGet k l := by
  have hne' : (k2 == k) = false := by
    simp only [beq_eq_false_iff_ne, ne_eq]
    exact fun h => hne h.symm
  induction l with
  | nil => simp [dictGet, dictSet, hne']
  | cons h t ih =>
    by_cases hk : h.1 == k2
    · have hk1 : h.1 = k2 := beq_iff_eq.mp hk
      have hk' : (h.1 == k) = false := by
        rw [hk1]
        exact hne'
      simp [dictGet, dictSet, hk, hk', hne']
    · simp [dictGet, dictSet, hk, ih]

theorem countKey_cons {α : Type} (k : String) (p : String × α) (t : List (String × α)) :
    countKey k (p :: t) = (if p.1 == k then 1 else 0) + countKey k t := by
  by_cases hk : p.1 == k <;> simp [countKey, List.filter_cons, hk] <;> omega

theorem countKey_dictSet {α : Type} (k : String) (v : α) (l : List (String × α))
    (h : countKey k l ≤ 1) : countKey k (dictSet k v l) = 1 := by
  induction l with
  | nil => simp [countKey, dictSet]
  | cons hd t ih =>
    by_cases hk : hd.1 == k
    · have e1 : dictSet k v (hd :: t) = (k, v) :: t := by simp [dictSet, hk]
      rw [countKey_cons, if_pos hk] at h
      rw [e1, countKey_cons]
      simp only [beq_self_eq_true, if_pos]
      omega
    · have e1 : dictSet k v (hd :: t) = hd :: dictSet k v t := by simp [dictSet, hk]
      rw [countKey_cons, if_neg hk] at h
      rw [e1, countKey_cons, if_neg hk]
      rw [ih (by omega)]

theorem listStarts_refl (l : List Char) : listStarts l l = true := by
  induction l with
  | nil => rfl
  | cons a t ih => simp [listStarts, ih]

theorem listStarts_append {p l : List Char} (l2 : List Char)
    (h : listStarts p l = true) : listStarts p (l ++ l2) = true := by
  induction p generalizing l with
  | nil => simp [listStarts]
  | cons a q ih =>
    cases l with
    | nil => simp [listStarts] at h
    | cons b t =>
      simp [listStarts] at h ⊢
      exact ⟨h.1, ih h.2⟩

theorem listHasSub_of_starts {p l : List Char} (h : listStarts p l = true) :
    listHasSub p l = true := by
  cases l with
  | nil => simpa [listHasSub] using h
  | cons b t => simp [listHasSub, h]

theorem listHasSub_append_right {p : List Char} (l1 : List Char) {l2 : List Char}
    (h : listHasSub p l2 = true) : listHasSub p (l1 ++ l2) = true := by
  induction l1 with
  | nil => simpa using h
  | cons b t ih =>
    simp [listHasSub]
    right
    exact ih

theorem listHasSub_append_left {p l1 : List Char} (l2 : List Char)
    (h : listHasSub p l1 = true) : listHasSub p (l1 ++ l2) = true := by
  induction l1 with
  | nil =>
    have hp : p = [] := by
      cases p with
      | nil => rfl
      | cons a q => simp [listHasSub, listStarts] at h
    subst hp
    cases l2 with
    | nil => simp [listHasSub, listStarts]
    | cons b t => simp [listHasSub, listStarts]
  | cons b t ih =>
    simp [listHasSub] at h ⊢
    rcases h with h | h
    · left; exact listStarts_append l2 h
    · right; exact ih h

theorem listStarts_cons_inv {a : Char} {p l : List Char}
    (h : listStarts (a :: p) l = true) :
    ∃ tl, l = a :: tl ∧ listStarts p tl = true := by
  cases l with
  | nil => simp [listStarts] at h
  | cons b t =>
    simp [listStarts] at h
    exact ⟨t, by rw [h.1], h.2⟩

/-- Claim C2 (code bug in `_log_api_call`, lines 29-37): the claim says a
warning is emitted on reaching 90% of the 100-call quota and an error on
reaching or exceeding 100%. In the code the `elif api_calls_made >= 100`
branch is shadowed by the `if api_calls_made >= 90` branch and is therefore
unreachable: no critical/error line is ever printed, and in particular the
100th call produces only the approaching-limit warning. Calls are never
blocked or refused: the counter increments and the call proceeds. -/
theorem c2_quota_logging_code_bug :
    (∀ (st : TCState) (e : String),
       ApiLogEvent.criticalExceededLimit ∉ (logApiCall st e).2)
    ∧ (logApiCall ⟨99, []⟩ "tweets/counts/recent(user=alice)").2
        = [ApiLogEvent.info 100 "tweets/counts/recent(user=alice)",
           ApiLogEvent.warnApproachingLimit]
    ∧ ((logApiCall ⟨99, []⟩ "tweets/counts/recent(user=alice)").1).api_calls_made = 100 := by
  refine ⟨?_, by decide, by decide⟩
  intro st e
  simp only [logApiCall, List.mem_cons]
  by_cases h : st.api_calls_made + 1 ≥ 90
  · simp [h]
  · simp [h, show ¬st.api_calls_made + 1 ≥ 100 by omega]

/-- Claim C3 (code bug in `get_tweet_count_24h`, lines 73-80): the window does
end at (clock − 30 s, truncated to seconds) and start 24 h earlier, rendered
with second precision and a trailing `Z` — but the clock is `datetime.now()`,
the naive *local* wall clock, so the emitted strings are genuine UTC
instants only when the host timezone is UTC. Failing input: true UTC instant
1735689600 (2025-01-01T00:00:00Z) on a UTC+01:00 host: the emitted bounds
are shifted one hour away from the UTC instants the claim specifies. -/
theorem c3_window_code_bug :
    tweetWindow 1735689600 3600 500000 = ("2024-12-31T00:59:30Z", "2025-01-01T00:59:30Z")
    ∧ strftimeZ (1735689600 - 30) = "2024-12-31T23:59:30Z"
    ∧ strftimeZ (1735689600 - 30 - 86400) = "2024-12-30T23:59:30Z"
    ∧ (tweetWindow 1735689600 3600 500000).2 ≠ strftimeZ (1735689600 - 30)
    ∧ (tweetWindow 1735689600 3600 500000).1 ≠ strftimeZ (1735689600 - 30 - 86400)
    ∧ tweetWindow 1735689600 0 500000 = ("2024-12-30T23:59:30Z", "2024-12-31T23:59:30Z") := by
  refine ⟨by decide, by decide, by decide, by decide, by decide, by decide⟩

/-- Claim C1 (amended): when no registry entry's `time_of_day` equals the
current HH:MM string, `check_and_send_reminders` performs zero delivery
attempts and returns an empty result list — but its `checked` field is 0,
not the number of configured entries: skipped entries contribute no result,
and `checked` counts only error-free results (lines 231-233, 279). -/
theorem c1_no_match_amended (pr : PostingReminder) (fetch : String → Except String Nat)
    (t : String) (h : ∀ p ∈ pr.reminders, (Prod.snd p).reminder_time ≠ t) :
    (check_and_send_reminders pr fetch t).2 = []
    ∧ (check_and_send_reminders pr fetch t).1.results = []
    ∧ (check_and_send_reminders pr fetch t).1.checked = 0
    ∧ (check_and_send_reminders pr fetch t).1.total_reminders = pr.reminders.length := by
  have hnone : ∀ p ∈ pr.reminders, processReminder pr.poke_client fetch t p = none := by
    intro p hp
    have hb : (p.2.reminder_time != t) = true := by
      simp only [bne_iff_ne, ne_eq]
      exact h p hp
    simp [processReminder, hb]
  have hstep : pr.reminders.filterMap (processReminder pr.poke_client fetch t) = [] :=
    List.filterMap_eq_nil.mpr hnone
  simp [check_and_send_reminders, hstep]

theorem c1_no_match_amended_witness :
    (check_and_send_reminders
        ⟨none, [("daily_alice_09:00", ⟨"alice", "09:00", 1, "m", true, "T"⟩)]⟩
        (fun _ => Except.ok 0) "10:00").2 = []
    ∧ (check_and_send_reminders
        ⟨none, [("daily_alice_09:00", ⟨"alice", "09:00", 1, "m", true, "T"⟩)]⟩
        (fun _ => Except.ok 0) "10:00").1.checked = 0
    ∧ (check_and_send_reminders
        ⟨none, [("daily_alice_09:00", ⟨"alice", "09:00", 1, "m", true, "T"⟩)]⟩
        (fun _ => Except.ok 0) "10:00").1.total_reminders = 1 := by
  have h := c1_no_match_amended
    ⟨none, [("daily_alice_09:00", ⟨"alice", "09:00", 1, "m", true, "T"⟩)]⟩
    (fun _ => Except.ok 0) "10:00" (by decide)
  exact ⟨h.1, h.2.2.1, by rw [h.2.2.2]; rfl⟩

/-- Claim C1 counterexample: a registry with one configured entry whose time
does not match the current time yields `checked = 0`, not
`checked = total_reminders = 1` as the claim states. -/
theorem c1_counterexample :
    (check_and_send_reminders
        ⟨none, [("daily_alice_09:00", ⟨"alice", "09:00", 1, "m", true, "T"⟩)]⟩
        (fun _ => Except.ok 0) "10:00").1.checked
      ≠ (check_and_send_reminders
        ⟨none, [("daily_alice_09:00", ⟨"alice", "09:00", 1, "m", true, "T"⟩)]⟩
        (fun _ => Except.ok 0) "10:00").1.total_reminders := by
  decide

/-- Claim C4 (amended): `setup_daily_reminder` succeeds for every time string
the `%H:%M` parser accepts — all canonical HH:MM with HH in 00-23 and MM in
00-59, but also the tolerated one-digit forms such as "9:5" — and returns
the tagged invalid-time failure value, without raising, for every string the
parser rejects. The username is never validated: registration succeeds for
any username, including the empty string (no `ValidationError` exists for
it, contrary to the claim). -/
theorem c4_validation_amended (pr : PostingReminder) (u t : String) (mp : Int)
    (msg : Option String) (nowIso : String) :
    (strptimeHM t = true →
       ∃ cfg : ReminderConfig,
         setup_daily_reminder pr u t mp msg nowIso
           = (SetupResult.success ("daily_" ++ u ++ "_" ++ t) cfg
                ("✅ Daily reminder set for @" ++ u ++ " at " ++ t),
              ⟨pr.poke_client, dictSet ("daily_" ++ u ++ "_" ++ t) cfg pr.reminders⟩))
    ∧ (strptimeHM t = false →
       setup_daily_reminder pr u t mp msg nowIso
         = (SetupResult.failure "Invalid time format. Use HH:MM (e.g., \"18:00\")", pr))
    ∧ (∀ hh : Nat, hh < 24 → ∀ mm : Nat, mm < 60 →
         strptimeHM (pad2 hh ++ ":" ++ pad2 mm) = true) := by
  refine ⟨?_, ?_, by decide⟩
  · intro ht
    refine ⟨⟨u, t, mp,
      (match msg with
       | some m => if m == "" then default_message t mp else m
       | none => default_message t mp), true, nowIso⟩, ?_⟩
    simp [setup_daily_reminder, ht]
  · intro hf
    simp [setup_daily_reminder, hf]

theorem c4_validation_amended_witness :
    (∃ cfg : ReminderConfig,
       setup_daily_reminder ⟨none, []⟩ "" "18:00" 1 none "T"
         = (SetupResult.success "daily__18:00" cfg "✅ Daily reminder set for @ at 18:00",
            ⟨none, dictSet "daily__18:00" cfg []⟩))
    ∧ setup_daily_reminder ⟨none, []⟩ "alice" "24:00" 1 none "T"
        = (SetupResult.failure "Invalid time format. Use HH:MM (e.g., \"18:00\")", ⟨none, []⟩) := by
  constructor
  · exact (c4_validation_amended ⟨none, []⟩ "" "18:00" 1 none "T").1 (by decide)
  · exact (c4_validation_amended ⟨none, []⟩ "alice" "24:00" 1 none "T").2.1 (by decide)

/-- Claim C4 counterexample: the claim as stated is false on two counts —
registering with an empty username and a valid time succeeds (no
`ValidationError`), and the non-HH:MM string "9:5" is accepted rather than
rejected. -/
theorem c4_counterexample :
    (∃ cfg : ReminderConfig,
       (setup_daily_reminder ⟨none, []⟩ "" "18:00" 1 none "T").1
         = SetupResult.success "daily__18:00" cfg "✅ Daily reminder set for @ at 18:00")
    ∧ (∃ cfg : ReminderConfig,
       (setup_daily_reminder ⟨none, []⟩ "alice" "9:5" 1 none "T").1
         = SetupResult.success "daily_alice_9:5" cfg "✅ Daily reminder set for @alice at 9:5") := by
  exact ⟨⟨⟨"", "18:00", 1, default_message "18:00" 1, true, "T"⟩, rfl⟩,
         ⟨⟨"alice", "9:5", 1, default_message "9:5" 1, true, "T"⟩, rfl⟩⟩

/-- Claim C9 (confirmed): registering twice with the identical
(username, time) pair produces the same derived id `daily_{u}_{t}`, so the
second `reminders[id] = config` assignment overwrites the first: exactly one
binding for that id remains and it holds the second call's configuration
(lines 174-203). `hwf` states the dict invariant (at most one binding per
key) for the starting registry. -/
theorem c9_overwrite_confirmed (pr : PostingReminder) (u t : String)
    (mp1 mp2 : Int) (msg1 msg2 : Option String) (n1 n2 : String)
    (ht : strptimeHM t = true)
    (hwf : countKey ("daily_" ++ u ++ "_" ++ t) pr.reminders ≤ 1) :
    countKey ("daily_" ++ u ++ "_" ++ t)
        (((setup_daily_reminder (setup_daily_reminder pr u t mp1 msg1 n1).2
            u t mp2 msg2 n2).2).reminders) = 1
    ∧ dictGet ("daily_" ++ u ++ "_" ++ t)
        (((setup_daily_reminder (setup_daily_reminder pr u t mp1 msg1 n1).2
            u t mp2 msg2 n2).2).reminders)
      = some ⟨u, t, mp2,
          (match msg2 with
           | some m => if m == "" then default_message t mp2 else m
           | none => default_message t mp2), true, n2⟩ := by
  constructor
  · simp only [setup_daily_reminder, ht, if_pos]
    exact countKey_dictSet _ _ _ (by rw [countKey_dictSet _ _ _ hwf])
  · simp only [setup_daily_reminder, ht, if_pos]
    exact dictGet_dictSet _ _ _

theorem c9_overwrite_confirmed_witness :
    countKey "daily_alice_09:00"
        (((setup_daily_reminder (setup_daily_reminder ⟨none, []⟩ "alice" "09:00" 1 none "T1").2
            "alice" "09:00" 3 (some "custom") "T2").2).reminders) = 1
    ∧ dictGet "daily_alice_09:00"
        (((setup_daily_reminder (setup_daily_reminder ⟨none, []⟩ "alice" "09:00" 1 none "T1").2
            "alice" "09:00" 3 (some "custom") "T2").2).reminders)
      = some ⟨"alice", "09:00", 3, "custom", true, "T2"⟩ := by
  have h := c9_overwrite_confirmed ⟨none, []⟩ "alice" "09:00" 1 3 none (some "custom")
    "T1" "T2" (by decide) (by decide)
  exact ⟨h.1, h.2⟩

theorem get_user_id_hit (st : TCState) (r : UserResponse) (u uid : String)
    (h : dictGet u st.user_id_cache = some uid) :
    get_user_id st r u = (Except.ok uid, st) := by
  unfold get_user_id
  rw [h]

theorem get_user_id_ok_cache (st : TCState) (r : UserResponse) (u uid : String)
    (st1 : TCState) (h : get_user_id st r u = (Except.ok uid, st1)) :
    dictGet u st1.user_id_cache = some uid
    ∧ st1.api_calls_made ≤ st.api_calls_made + 1 := by
  unfold get_user_id at h
  split at h
  · -- cache hit
    rename_i v heq
    obtain ⟨h1, h2⟩ := Prod.mk.injEq .. ▸ h
    injection h1 with h1
    subst h2
    subst h1
    exact ⟨heq, Nat.le_succ _⟩
  · -- cache miss
    split at h
    · -- status 200
      split at h
      · -- data present
        rename_i id0 hd
        simp only [logApiCall, Prod.mk.injEq] at h
        obtain ⟨h1, h2⟩ := h
        injection h1 with h1
        subst h1
        rw [← h2]
        exact ⟨dictGet_dictSet _ _ _, le_refl _⟩
      · simp at h
    · simp at h

theorem get_user_id_cache_mono (st : TCState) (r : UserResponse) (u u2 uid : String)
    (h : dictGet u st.user_id_cache = some uid) :
    dictGet u (((get_user_id st r u2).2).user_id_cache) = some uid := by
  unfold get_user_id
  cases hc : dictGet u2 st.user_id_cache with
  | some v => simpa using h
  | none =>
    have hu : u ≠ u2 := by
      intro he
      rw [he, hc] at h
      exact Option.noConfusion h
    by_cases hs : (r.status == 200)
    · cases hd : r.dataId with
      | some id0 =>
        simp only [hs, hd, if_pos, logApiCall]
        rw [dictGet_dictSet_ne _ _ hu]
        exact h
      | none =>
        simp only [hs, hd, if_pos, logApiCall]
        exact h
    · simp only [hs, Bool.false_eq_true, if_false, logApiCall]
      exact h

/-- Claim C6 (amended): after a *successful* `get_user_id` resolution the
identifier is cached; every later call for the same username is a cache hit
that returns the same id with no state change and no outbound call, the
first resolution made at most one outbound call, and no later call on the
instance ever overwrites the cached entry (lines 39-66). The claim's
unconditional "at most one outbound lookup call for two invocations" is
false — a failed lookup is not cached, so it is retried (see the
counterexample). -/
theorem c6_cache_amended (st st1 : TCState) (r1 r2 : UserResponse) (u uid : String)
    (h : get_user_id st r1 u = (Except.ok uid, st1)) :
    get_user_id st1 r2 u = (Except.ok uid, st1)
    ∧ st1.api_calls_made ≤ st.api_calls_made + 1
    ∧ dictGet u st1.user_id_cache = some uid
    ∧ ∀ (u2 : String) (r3 : UserResponse),
        dictGet u (((get_user_id st1 r3 u2).2).user_id_cache) = some uid := by
  have hcc := get_user_id_ok_cache st r1 u uid st1 h
  exact ⟨get_user_id_hit st1 r2 u uid hcc.1, hcc.2, hcc.1,
         fun u2 r3 => get_user_id_cache_mono st1 r3 u u2 uid hcc.1⟩

theorem c6_cache_amended_witness :
    get_user_id ((get_user_id ⟨0, []⟩ ⟨200, "", some "123"⟩ "alice").2)
        ⟨500, "boom", none⟩ "alice"
      = (Except.ok "123", (get_user_id ⟨0, []⟩ ⟨200, "", some "123"⟩ "alice").2)
    ∧ ((get_user_id ⟨0, []⟩ ⟨200, "", some "123"⟩ "alice").2).api_calls_made ≤ 0 + 1
    ∧ dictGet "alice" (((get_user_id ⟨0, []⟩ ⟨200, "", some "123"⟩ "alice").2).user_id_cache)
      = some "123" := by
  have h := c6_cache_amended ⟨0, []⟩ ((get_user_id ⟨0, []⟩ ⟨200, "", some "123"⟩ "alice").2)
    ⟨200, "", some "123"⟩ ⟨500, "boom", none⟩ "alice" "123" rfl
  exact ⟨h.1, h.2.1, h.2.2.1⟩

/-- Claim C6 counterexample: when the provider fails the first lookup (HTTP
500), nothing is cached and a second call for the same username issues a
second outbound call — two calls in total, refuting "at most one outbound
lookup call" for every pair of calls. -/
theorem c6_counterexample :
    ¬ (((get_user_id ((get_user_id ⟨0, []⟩ ⟨500, "boom", none⟩ "alice").2)
          ⟨500, "boom", none⟩ "alice").2).api_calls_made ≤ 1) := by
  decide

theorem get_tweet_count_24h_ok (st st1 : TCState) (ur : UserResponse) (cr : CountResponse)
    (u uid : String) (ns nu : Int)
    (hu : get_user_id st ur u = (Except.ok uid, st1)) (h200 : cr.status = 200) :
    get_tweet_count_24h st ur cr u ns nu
      = (Except.ok ⟨u, uid, (cr.buckets.getD []).sum, "24 hours",
           isoformatLocal ns nu, st1.api_calls_made + 1⟩,
         ⟨st1.api_calls_made + 1, st1.user_id_cache⟩) := by
  unfold get_tweet_count_24h
  rw [hu]
  cases hb : cr.buckets with
  | none => simp [h200, hb, logApiCall]
  | some pts =>
    cases pts with
    | nil => simp [h200, hb, logApiCall]
    | cons a l => simp [h200, hb, logApiCall]

/-- Claim C8 (confirmed): on a 200 response from the counting endpoint,
`get_tweet_count_24h` returns a success value whose count is the sum of the
`tweet_count` fields over all returned time buckets, and a response with
zero time buckets (or no `data` member at all) yields count 0 rather than
an error (lines 97-119). -/
theorem c8_sum_confirmed (st st1 : TCState) (ur : UserResponse) (cr : CountResponse)
    (u uid : String) (ns nu : Int)
    (hu : get_user_id st ur u = (Except.ok uid, st1)) (h200 : cr.status = 200) :
    ∃ r : TweetCountResult,
      (get_tweet_count_24h st ur cr u ns nu).1 = Except.ok r
      ∧ r.tweet_count_24h = (cr.buckets.getD []).sum
      ∧ r.username = u ∧ r.user_id = uid
      ∧ ((cr.buckets = some [] ∨ cr.buckets = none) → r.tweet_count_24h = 0) := by
  refine ⟨⟨u, uid, (cr.buckets.getD []).sum, "24 hours",
           isoformatLocal ns nu, st1.api_calls_made + 1⟩,
          by rw [get_tweet_count_24h_ok st st1 ur cr u uid ns nu hu h200],
          rfl, rfl, rfl, ?_⟩
  rintro (h0 | h0) <;> simp [h0]

theorem c8_sum_confirmed_witness :
    (∃ r : TweetCountResult,
       (get_tweet_count_24h ⟨0, [("alice", "123")]⟩ ⟨200, "", some "123"⟩
           ⟨200, "", some [3, 4]⟩ "alice" 0 0).1 = Except.ok r
       ∧ r.tweet_count_24h = ((some [3, 4] : Option (List Nat)).getD []).sum
       ∧ r.username = "alice" ∧ r.user_id = "123"
       ∧ (((some [3, 4] : Option (List Nat)) = some [] ∨
           (some [3, 4] : Option (List Nat)) = none) → r.tweet_count_24h = 0))
    ∧ (∃ r : TweetCountResult,
       (get_tweet_count_24h ⟨0, [("alice", "123")]⟩ ⟨200, "", some "123"⟩
           ⟨200, "", some []⟩ "alice" 0 0).1 = Except.ok r
       ∧ r.tweet_count_24h = ((some [] : Option (List Nat)).getD []).sum
       ∧ r.username = "alice" ∧ r.user_id = "123"
       ∧ (((some [] : Option (List Nat)) = some [] ∨
           (some [] : Option (List Nat)) = none) → r.tweet_count_24h = 0)) := by
  constructor
  · exact c8_sum_confirmed ⟨0, [("alice", "123")]⟩ ⟨0, [("alice", "123")]⟩
      ⟨200, "", some "123"⟩ ⟨200, "", some [3, 4]⟩ "alice" "123" 0 0 rfl rfl
  · exact c8_sum_confirmed ⟨0, [("alice", "123")]⟩ ⟨0, [("alice", "123")]⟩
      ⟨200, "", some "123"⟩ ⟨200, "", some []⟩ "alice" "123" 0 0 rfl rfl

theorem listStarts_head_ne {a b : Char} (p l : List Char) (h : (a == b) = false) :
    listStarts (a :: p) (b :: l) = false := by
  simp [listStarts, h]

theorem listHasSub_append_not_mem {c : Char} (p : List Char) {l1 : List Char}
    (l2 : List Char) (hc : c ∉ l1) :
    listHasSub (c :: p) (l1 ++ l2) = listHasSub (c :: p) l2 := by
  induction l1 with
  | nil => rfl
  | cons b t ih =>
    have hcb : (c == b) = false := by
      simp only [beq_eq_false_iff_ne, ne_eq]
      intro he
      exact hc (by rw [he]; exact List.mem_cons_self b t)
    have hct : c ∉ t := fun h2 => hc (List.mem_cons_of_mem b h2)
    simp [listHasSub, listStarts, hcb, ih hct]

theorem get_tweet_count_24h_err (st st1 : TCState) (ur : UserResponse) (cr : CountResponse)
    (u uid : String) (ns nu : Int)
    (hu : get_user_id st ur u = (Except.ok uid, st1)) (hneq : (cr.status == 200) = false) :
    (get_tweet_count_24h st ur cr u ns nu).1
      = Except.error (wrapCountError ("API Error " ++ toString cr.status ++ ": "
          ++ cr.body)) := by
  unfold get_tweet_count_24h
  rw [hu]
  simp [hneq]

/-- Claim C5 (amended): a 429 from the counting endpoint surfaces as the
distinguished rate-limit error (message text beginning "Rate limit exceeded."),
carrying the status code and the provider body, while a 500 surfaces as the
generic provider error (beginning "Error fetching tweet count:"), also carrying
status and body — *provided* the 500 body does not itself contain the
substring "429": the dispatch at line 124 is `if "429" in str(e)`, a plain
substring test on the exception text, so a 500 whose body mentions "429" is
reported as rate-limited (see the counterexample). Both error kinds are
Python `Exception` values distinguishable only by their message text. -/
theorem c5_rate_limited_amended (st : TCState) (ur : UserResponse) (cr : CountResponse)
    (u uid : String) (ns nu : Int)
    (hcache : dictGet u st.user_id_cache = some uid) :
    (cr.status = 429 →
       ∃ m : String,
         (get_tweet_count_24h st ur cr u ns nu).1 = Except.error m
         ∧ strStarts "Rate limit exceeded." m = true
         ∧ strHasSub "429" m = true
         ∧ strHasSub cr.body m = true)
    ∧ (cr.status = 500 → strHasSub "429" cr.body = false →
       ∃ m : String,
         (get_tweet_count_24h st ur cr u ns nu).1 = Except.error m
         ∧ strStarts "Error fetching tweet count:" m = true
         ∧ strStarts "Rate limit exceeded." m = false
         ∧ strHasSub "500" m = true
         ∧ strHasSub cr.body m = true) := by
  have hu := get_user_id_hit st ur u uid hcache
  constructor
  · intro hs
    have hneq : (cr.status == 200) = false := by rw [hs]; decide
    have ecall := get_tweet_count_24h_err st st ur cr u uid ns nu hu hneq
    rw [hs] at ecall
    have h429 : strHasSub "429" ("API Error " ++ toString (429 : Nat) ++ ": "
        ++ cr.body) = true := by
      simp only [strHasSub, String.data_append, List.append_assoc]
      exact listHasSub_append_right _
        (listHasSub_of_starts (listStarts_append _ (by decide)))
    have hm : wrapCountError ("API Error " ++ toString (429 : Nat) ++ ": " ++ cr.body)
        = "Rate limit exceeded. Please wait 15 minutes before trying again. Error: "
          ++ ("API Error " ++ toString (429 : Nat) ++ ": " ++ cr.body) := by
      simp only [wrapCountError, h429, if_true]
    rw [hm] at ecall
    refine ⟨_, ecall, ?_, ?_, ?_⟩
    · simp only [strStarts, String.data_append]
      exact listStarts_append _ (by decide)
    · simp only [strHasSub, String.data_append, List.append_assoc]
      exact listHasSub_append_right _ (listHasSub_append_right _
        (listHasSub_of_starts (listStarts_append _ (by decide))))
    · simp only [strHasSub, String.data_append, List.append_assoc]
      exact listHasSub_append_right _ (listHasSub_append_right _
        (listHasSub_append_right _ (listHasSub_append_right _
          (listHasSub_of_starts (listStarts_refl _)))))
  · intro hs hb
    have hneq : (cr.status == 200) = false := by rw [hs]; decide
    have ecall := get_tweet_count_24h_err st st ur cr u uid ns nu hu hneq
    rw [hs] at ecall
    have step1 := listHasSub_append_not_mem (("29").data)
      ((toString (500 : Nat)).data ++ ((": ").data ++ cr.body.data))
      (show '4' ∉ ("API Error ").data by decide)
    have step2 := listHasSub_append_not_mem (("29").data)
      ((": ").data ++ cr.body.data)
      (show '4' ∉ (toString (500 : Nat)).data by decide)
    have step3 := listHasSub_append_not_mem (("29").data) (cr.body.data)
      (show '4' ∉ (": ").data by decide)
    have hno : strHasSub "429" ("API Error " ++ toString (500 : Nat) ++ ": "
        ++ cr.body) = false := by
      show listHasSub ('4' :: ("29").data)
        (("API Error ").data ++ ((toString (500 : Nat)).data ++ ((": ").data
          ++ cr.body.data))) = false
      rw [step1, step2, step3]
      exact hb
    have hm : wrapCountError ("API Error " ++ toString (500 : Nat) ++ ": " ++ cr.body)
        = "Error fetching tweet count: "
          ++ ("API Error " ++ toString (500 : Nat) ++ ": " ++ cr.body) := by
      simp only [wrapCountError, hno, Bool.false_eq_true, if_false]
    rw [hm] at ecall
    refine ⟨_, ecall, ?_, ?_, ?_, ?_⟩
    · simp only [strStarts, String.data_append]
      exact listStarts_append _ (by decide)
    · show listStarts ('R' :: ("ate limit exceeded.").data)
        ('E' :: (("rror fetching tweet count: ").data
          ++ ("API Error " ++ toString (500 : Nat) ++ ": " ++ cr.body).data)) = false
      exact listStarts_head_ne _ _ (by decide)
    · simp only [strHasSub, String.data_append, List.append_assoc]
      exact listHasSub_append_right _ (listHasSub_append_right _
        (listHasSub_of_starts (listStarts_append _ (by decide))))
    · simp only [strHasSub, String.data_append, List.append_assoc]
      exact listHasSub_append_right _ (listHasSub_append_right _
        (listHasSub_append_right _ (listHasSub_append_right _
          (listHasSub_of_starts (listStarts_refl _)))))

theorem c5_rate_limited_amended_witness :
    (∃ m : String,
       (get_tweet_count_24h ⟨0, [("bob", "42")]⟩ ⟨200, "", some "42"⟩
           ⟨429, "Too many requests", none⟩ "bob" 0 0).1 = Except.error m
       ∧ strStarts "Rate limit exceeded." m = true
       ∧ strHasSub "429" m = true
       ∧ strHasSub "Too many requests" m = true)
    ∧ (∃ m : String,
       (get_tweet_count_24h ⟨0, [("bob", "42")]⟩ ⟨200, "", some "42"⟩
           ⟨500, "Internal Server Error", none⟩ "bob" 0 0).1 = Except.error m
       ∧ strStarts "Error fetching tweet count:" m = true
       ∧ strStarts "Rate limit exceeded." m = false
       ∧ strHasSub "500" m = true
       ∧ strHasSub "Internal Server Error" m = true) := by
  constructor
  · exact (c5_rate_limited_amended ⟨0, [("bob", "42")]⟩ ⟨200, "", some "42"⟩
      ⟨429, "Too many requests", none⟩ "bob" "42" 0 0 rfl).1 rfl
  · exact (c5_rate_limited_amended ⟨0, [("bob", "42")]⟩ ⟨200, "", some "42"⟩
      ⟨500, "Internal Server Error", none⟩ "bob" "42" 0 0 rfl).2 rfl (by decide)

/-- Claim C5 counterexample: a 500 response whose body happens to contain the
digits "429" is reported with the rate-limited message, not the generic
provider error, because the dispatch is a substring test on the exception
text — so a 500 response is not always distinguishable as a generic
provider error, refuting the claim as universally stated. -/
theorem c5_counterexample :
    (get_tweet_count_24h ⟨0, [("bob", "42")]⟩ ⟨200, "", some "42"⟩
        ⟨500, "code 429 upstream", none⟩ "bob" 0 0).1
      = Except.error ("Rate limit exceeded. Please wait 15 minutes before trying again. Error: API Error 500: code 429 upstream")
    ∧ strStarts "Rate limit exceeded."
        "Rate limit exceeded. Please wait 15 minutes before trying again. Error: API Error 500: code 429 upstream" = true := by
  exact ⟨rfl, by decide⟩

theorem check_results_append (poke : Option (String → String))
    (fetch : String → Except String Nat) (t : String) (x : String × ReminderConfig)
    (e : CheckEntry) (om : Option String) (l1 l2 : List (String × ReminderConfig))
    (hx : processReminder poke fetch t x = some (e, om)) :
    (check_and_send_reminders ⟨poke, l1 ++ x :: l2⟩ fetch t).1.results
      = (check_and_send_reminders ⟨poke, l1⟩ fetch t).1.results
        ++ e :: (check_and_send_reminders ⟨poke, l2⟩ fetch t).1.results := by
  simp [check_and_send_reminders, List.filterMap_append, List.filterMap_cons, hx]

/-- Claim C7 (confirmed): for an active entry whose time matches the current
minute, the check pass records exactly the claimed per-case result
(lines 235-273): fetch failure → per-entry error result, count below the
threshold → delivery of the stored message with sent=true and the client's
response (or sent=false with the no-client reason when no Poke client is
configured), count at/above threshold → sent=false with the goal-met
reason and no delivery; and the entry's result is spliced into the pass
between the results of the preceding and following entries, which are
processed regardless of this entry's outcome (failure isolation). -/
theorem c7_per_entry_confirmed (poke : Option (String → String))
    (fetch : String → Except String Nat) (t rid : String) (cfg : ReminderConfig)
    (hact : cfg.active = true) (ht : cfg.reminder_time = t) :
    ∃ (e : CheckEntry) (optMsg : Option String),
      processReminder poke fetch t (rid, cfg) = some (e, optMsg)
      ∧ (∀ err, fetch cfg.username = Except.error err →
           e = ⟨rid, cfg.username, false, none, none, some err, none⟩ ∧ optMsg = none)
      ∧ (∀ c, fetch cfg.username = Except.ok c → (c : Int) < cfg.min_posts →
           (∀ send, poke = some send →
              e = ⟨rid, cfg.username, true, some c, some (send cfg.message), none, none⟩
              ∧ optMsg = some cfg.message)
           ∧ (poke = none →
              e = ⟨rid, cfg.username, false, some c, none,
                   some "No Poke client configured", none⟩ ∧ optMsg = none))
      ∧ (∀ c, fetch cfg.username = Except.ok c → cfg.min_posts ≤ (c : Int) →
           e = ⟨rid, cfg.username, false, some c, none, none,
                some "Tweet goal already met"⟩ ∧ optMsg = none)
      ∧ (∀ l1 l2, (check_and_send_reminders ⟨poke, l1 ++ (rid, cfg) :: l2⟩ fetch t).1.results
           = (check_and_send_reminders ⟨poke, l1⟩ fetch t).1.results
             ++ e :: (check_and_send_reminders ⟨poke, l2⟩ fetch t).1.results) := by
  have hskip : (!cfg.active || cfg.reminder_time != t) = false := by
    simp [hact, ht]
  cases hf : fetch cfg.username with
  | error err =>
    have hproc : processReminder poke fetch t (rid, cfg)
        = some (⟨rid, cfg.username, false, none, none, some err, none⟩, none) := by
      simp [processReminder, hskip, hf]
    refine ⟨_, _, hproc, ?_, ?_, ?_, ?_⟩
    · intro err' he'
      injection he' with h1
      subst h1
      exact ⟨rfl, rfl⟩
    · intro c hc
      exact absurd hc (by simp)
    · intro c hc
      exact absurd hc (by simp)
    · intro l1 l2
      exact check_results_append poke fetch t (rid, cfg) _ _ l1 l2 hproc
  | ok c =>
    by_cases hlt : (c : Int) < cfg.min_posts
    · cases poke with
      | some send =>
        have hproc : processReminder (some send) fetch t (rid, cfg)
            = some (⟨rid, cfg.username, true, some c, some (send cfg.message),
                     none, none⟩, some cfg.message) := by
          simp [processReminder, hskip, hf, hlt]
        refine ⟨_, _, hproc, ?_, ?_, ?_, ?_⟩
        · intro err' he'
          exact absurd he' (by simp)
        · intro c' hc' hlt'
          injection hc' with h1
          subst h1
          constructor
          · intro send' hs'
            injection hs' with h2
            subst h2
            exact ⟨rfl, rfl⟩
          · intro hn
            exact absurd hn (by simp)
        · intro c' hc' hge
          injection hc' with h1
          subst h1
          exact absurd hge (by omega)
        · intro l1 l2
          exact check_results_append _ fetch t (rid, cfg) _ _ l1 l2 hproc
      | none =>
        have hproc : processReminder none fetch t (rid, cfg)
            = some (⟨rid, cfg.username, false, some c, none,
                     some "No Poke client configured", none⟩, none) := by
          simp [processReminder, hskip, hf, hlt]
        refine ⟨_, _, hproc, ?_, ?_, ?_, ?_⟩
        · intro err' he'
          exact absurd he' (by simp)
        · intro c' hc' hlt'
          injection hc' with h1
          subst h1
          constructor
          · intro send' hs'
            exact absurd hs' (by simp)
          · intro hn
            exact ⟨rfl, rfl⟩
        · intro c' hc' hge
          injection hc' with h1
          subst h1
          exact absurd hge (by omega)
        · intro l1 l2
          exact check_results_append _ fetch t (rid, cfg) _ _ l1 l2 hproc
    · have hproc : processReminder poke fetch t (rid, cfg)
          = some (⟨rid, cfg.username, false, some c, none, none,
                   some "Tweet goal already met"⟩, none) := by
        simp [processReminder, hskip, hf, hlt]
      refine ⟨_, _, hproc, ?_, ?_, ?_, ?_⟩
      · intro err' he'
        exact absurd he' (by simp)
      · intro c' hc' hlt'
        injection hc' with h1
        subst h1
        exact absurd hlt' hlt
      · intro c' hc' hge
        injection hc' with h1
        subst h1
        exact ⟨rfl, rfl⟩
      · intro l1 l2
        exact check_results_append poke fetch t (rid, cfg) _ _ l1 l2 hproc

theorem c7_per_entry_confirmed_witness :
    ∃ (e : CheckEntry) (optMsg : Option String),
      processReminder (some (fun m => "ok:" ++ m)) (fun _ => Except.ok 0) "09:00"
          ("daily_alice_09:00", ⟨"alice", "09:00", 1, "hello", true, "T"⟩)
        = some (e, optMsg)
      ∧ e.sent = true ∧ optMsg = some "hello" := by
  obtain ⟨e, om, hp, herr, hlt, hge, happ⟩ :=
    c7_per_entry_confirmed (some (fun m => "ok:" ++ m)) (fun _ => Except.ok 0) "09:00"
      "daily_alice_09:00" ⟨"alice", "09:00", 1, "hello", true, "T"⟩ rfl rfl
  have h := (hlt 0 rfl (by decide)).1 (fun m => "ok:" ++ m) rfl
  exact ⟨e, om, hp, by rw [h.1], h.2⟩

/-- Claim C10 (confirmed): a reminder registered without a custom message
stores the default template generated at registration time, whose status
line is the hardcoded literal "Current status: 0 tweets in last 24 hours"
(line 184); at check time the checker delivers exactly the stored string
`config['message']` (line 242) — the same string for every fetched count
below the threshold, never interpolating the live count. -/
theorem c10_default_message_confirmed (pr : PostingReminder) (u t : String) (mp : Int)
    (nowIso : String) (ht : strptimeHM t = true) :
    ∃ cfg : ReminderConfig,
      dictGet ("daily_" ++ u ++ "_" ++ t)
          (((setup_daily_reminder pr u t mp none nowIso).2).reminders) = some cfg
      ∧ cfg.message = default_message t mp
      ∧ cfg.min_posts = mp
      ∧ strHasSub "Current status: 0 tweets in last 24 hours" (default_message t mp) = true
      ∧ (∀ (send : String → String) (c : Nat), (c : Int) < cfg.min_posts →
          processReminder (some send) (fun _ => Except.ok c) t
              ("daily_" ++ u ++ "_" ++ t, cfg)
            = some (⟨"daily_" ++ u ++ "_" ++ t, u, true, some c,
                     some (send (default_message t mp)), none, none⟩,
                    some (default_message t mp))) := by
  refine ⟨⟨u, t, mp, default_message t mp, true, nowIso⟩, ?_, rfl, rfl, ?_, ?_⟩
  · simp [setup_daily_reminder, ht, dictGet_dictSet]
  · simp only [strHasSub, default_message, String.data_append, List.append_assoc]
    exact listHasSub_append_left _ (by decide)
  · intro send c hc
    simp [processReminder, hc]

theorem c10_default_message_confirmed_witness :
    ∃ cfg : ReminderConfig,
      dictGet "daily_alice_09:00"
          (((setup_daily_reminder ⟨none, []⟩ "alice" "09:00" 1 none "T").2).reminders)
        = some cfg
      ∧ cfg.message = default_message "09:00" 1
      ∧ strHasSub "Current status: 0 tweets in last 24 hours"
          (default_message "09:00" 1) = true
      ∧ processReminder (some (fun m => "ok:" ++ m)) (fun _ => Except.ok 0) "09:00"
            ("daily_alice_09:00", cfg)
          = some (⟨"daily_alice_09:00", "alice", true, some 0,
                   some ("ok:" ++ default_message "09:00" 1), none, none⟩,
                  some (default_message "09:00" 1)) := by
  obtain ⟨cfg, h1, h2, hmp, h3, h4⟩ :=
    c10_default_message_confirmed ⟨none, []⟩ "alice" "09:00" 1 "T" (by decide)
  refine ⟨cfg, h1, h2, h3, ?_⟩
  exact h4 (fun m => "ok:" ++ m) 0 (by rw [hmp]; decide)
